import Mathlib

/-!
Shallow embedding of the `optical-entropy-generation` repository.

Rust `u8`/`u64`/`usize` values are modelled as `Nat` (byte slices as
`List Nat`); the `f64` statistics are modelled over `ℚ`, which computes the
same arithmetic exactly.  External library primitives (the BLAKE3 and
SHA-256 hashes, the ChaCha20 stream cipher, the OS entropy source) are not
code of this repository: they enter as explicit parameters or as the seed
value that determines them, so every theorem quantifies over them.
Methods that mutate `&mut self` become functions returning the updated
state (paired with the Rust return value where there is one).
-/

/-- Embeds `RawBits` (src/extraction/bitstream.rs): raw bytes plus the
number of source frames that contributed. -/
structure RawBits where
  data : List Nat
  source_frames : Nat
deriving DecidableEq, Repr

/-- Embeds `RawBits::from_bytes`. -/
def RawBits.from_bytes (data : List Nat) (source_frames : Nat) : RawBits :=
  { data := data, source_frames := source_frames }

/-- Embeds `RawBits::len` (number of bytes). -/
def RawBits.len (self : RawBits) : Nat :=
  self.data.length

/-- Embeds `RawBits::is_empty`. -/
def RawBits.is_empty (self : RawBits) : Bool :=
  self.data.isEmpty

/-- Embeds `RawBits::bit_count` (`len * 8`). -/
def RawBits.bit_count (self : RawBits) : Nat :=
  self.data.length * 8

/-- Models `u8::count_ones` on a byte value: the number of set bits among
the 8 bit positions of the (8-bit) value. -/
def byteOnes (b : Nat) : Nat :=
  ((List.range 8).map (fun i => b / 2 ^ i % 2)).sum

/-- Embeds `RawBits::popcount`: sum of `count_ones` over all bytes. -/
def RawBits.popcount (self : RawBits) : Nat :=
  (self.data.map byteOnes).sum

/-- Embeds `RawBits::bit_bias`: `ones/total - 0.5`, and `0.0` on empty
input.  The `f64` division is modelled exactly in `ℚ`. -/
def RawBits.bit_bias (self : RawBits) : ℚ :=
  if self.is_empty then 0
  else (self.popcount : ℚ) / (self.bit_count : ℚ) - 0.5

/-- Embeds `StatisticalTests` (src/analysis/statistics.rs), with the three
`f64` statistics carried exactly in `ℚ`. -/
structure StatisticalTests where
  bit_bias : ℚ
  variance : ℚ
  autocorrelation : ℚ
  sample_size : Nat
deriving DecidableEq, Repr

/-- Embeds `StatisticalTests::compute_variance`: population variance of the
byte values, `0.0` on empty input. -/
def StatisticalTests.compute_variance (data : List Nat) : ℚ :=
  if data = [] then 0
  else
    let n : ℚ := data.length
    let mean : ℚ := (data.map (fun (b : Nat) => (b : ℚ))).sum / n
    (data.map (fun (b : Nat) => ((b : ℚ) - mean) ^ 2)).sum / n

/-- Embeds `StatisticalTests::compute_autocorrelation`: lag-1
autocorrelation, `0.0` for fewer than two bytes, `1.0` when the (unscaled)
variance sum is exactly zero, otherwise covariance over variance.  The
Rust `data.windows(2)` iteration is the zip of the list with its tail. -/
def StatisticalTests.compute_autocorrelation (data : List Nat) : ℚ :=
  if data.length < 2 then 0
  else
    let n : ℚ := data.length
    let mean : ℚ := (data.map (fun (b : Nat) => (b : ℚ))).sum / n
    let variance : ℚ := (data.map (fun (b : Nat) => ((b : ℚ) - mean) ^ 2)).sum
    if variance = 0 then 1
    else
      let covariance : ℚ :=
        ((data.zip data.tail).map
          (fun (w : Nat × Nat) => ((w.1 : ℚ) - mean) * ((w.2 : ℚ) - mean))).sum
      covariance / variance

/-- Embeds `StatisticalTests::analyze`: runs all statistical tests on the
raw bits. -/
def StatisticalTests.analyze (raw : RawBits) : StatisticalTests :=
  { bit_bias := raw.bit_bias
    variance := StatisticalTests.compute_variance raw.data
    autocorrelation := StatisticalTests.compute_autocorrelation raw.data
    sample_size := raw.data.length }

/-- Embeds `QualityThresholds` (src/analysis/threshold.rs). -/
structure QualityThresholds where
  max_bit_bias : ℚ
  min_variance : ℚ
  max_autocorrelation : ℚ
deriving DecidableEq, Repr

/-- Embeds `QualityThresholds::default` (`0.05`, `500.0`, `0.3`). -/
def QualityThresholds.default : QualityThresholds :=
  { max_bit_bias := 0.05, min_variance := 500.0, max_autocorrelation := 0.3 }

/-- Embeds `QualityThresholds::conservative`. -/
def QualityThresholds.conservative : QualityThresholds :=
  { max_bit_bias := 0.02, min_variance := 1000.0, max_autocorrelation := 0.1 }

/-- Embeds `QualityThresholds::permissive`. -/
def QualityThresholds.permissive : QualityThresholds :=
  { max_bit_bias := 0.2, min_variance := 100.0, max_autocorrelation := 0.5 }

/-- Embeds `ThresholdViolation` (src/analysis/threshold.rs), each variant
carrying the observed value and the threshold. -/
inductive ThresholdViolation where
  | BitBias (observed threshold : ℚ)
  | LowVariance (observed threshold : ℚ)
  | HighAutocorrelation (observed threshold : ℚ)
deriving DecidableEq, Repr

/-- Embeds `QualityThresholds::check`: the Rust `Result<(), ThresholdViolation>`
becomes `Except ThresholdViolation Unit`; the three bounds are tested in the
source order with early return. -/
def QualityThresholds.check (self : QualityThresholds) (stats : StatisticalTests) :
    Except ThresholdViolation Unit :=
  if |stats.bit_bias| > self.max_bit_bias then
    .error (.BitBias stats.bit_bias self.max_bit_bias)
  else if stats.variance < self.min_variance then
    .error (.LowVariance stats.variance self.min_variance)
  else if |stats.autocorrelation| > self.max_autocorrelation then
    .error (.HighAutocorrelation stats.autocorrelation self.max_autocorrelation)
  else
    .ok ()

/-- Embeds `HealthMetrics` (src/analysis/health.rs). -/
structure HealthMetrics where
  latest_stats : Option StatisticalTests
  is_healthy : Bool
  last_violation : Option ThresholdViolation
  consecutive_healthy : Nat
  consecutive_unhealthy : Nat
  total_samples : Nat
deriving DecidableEq, Repr

/-- Embeds `HealthMetrics::default`: fail-closed, unhealthy until proven
otherwise. -/
def HealthMetrics.default : HealthMetrics :=
  { latest_stats := none
    is_healthy := false
    last_violation := none
    consecutive_healthy := 0
    consecutive_unhealthy := 0
    total_samples := 0 }

/-- Embeds `HealthMonitor` (src/analysis/health.rs). -/
structure HealthMonitor where
  thresholds : QualityThresholds
  metrics : HealthMetrics
  required_healthy_streak : Nat
deriving DecidableEq, Repr

/-- Embeds `HealthMonitor::new` (streak requirement 3). -/
def HealthMonitor.new (thresholds : QualityThresholds) : HealthMonitor :=
  { thresholds := thresholds
    metrics := HealthMetrics.default
    required_healthy_streak := 3 }

/-- Embeds `HealthMonitor::with_streak_requirement` (`streak.max(1)`). -/
def HealthMonitor.with_streak_requirement (thresholds : QualityThresholds)
    (streak : Nat) : HealthMonitor :=
  { thresholds := thresholds
    metrics := HealthMetrics.default
    required_healthy_streak := max streak 1 }

/-- Embeds `HealthMonitor::analyze`: runs the statistical tests, bumps the
sample count, then updates streaks and health according to the threshold
check; returns the updated monitor (the Rust method mutates `&mut self`).
On a pass, `is_healthy` is set to `true` only once the streak reaches the
requirement (and is never cleared here); on a violation it becomes `false`
immediately. -/
def HealthMonitor.analyze (self : HealthMonitor) (raw : RawBits) : HealthMonitor :=
  let stats := StatisticalTests.analyze raw
  let m0 := { self.metrics with total_samples := self.metrics.total_samples + 1 }
  match self.thresholds.check stats with
  | .ok _ =>
      let m1 := { m0 with
        consecutive_healthy := m0.consecutive_healthy + 1
        consecutive_unhealthy := 0
        last_violation := none }
      let m2 := { m1 with
        is_healthy :=
          if self.required_healthy_streak ≤ m1.consecutive_healthy then true
          else m1.is_healthy }
      { self with metrics := { m2 with latest_stats := some stats } }
  | .error violation =>
      let m1 := { m0 with
        consecutive_unhealthy := m0.consecutive_unhealthy + 1
        consecutive_healthy := 0
        last_violation := some violation
        is_healthy := false }
      { self with metrics := { m1 with latest_stats := some stats } }

/-- Embeds `HealthMonitor::allow_reseed`. -/
def HealthMonitor.allow_reseed (self : HealthMonitor) : Bool :=
  self.metrics.is_healthy

/-- Embeds `HealthMonitor::reset`. -/
def HealthMonitor.reset (self : HealthMonitor) : HealthMonitor :=
  { self with metrics := HealthMetrics.default }

/-- Embeds `HashAlgorithm` (src/conditioning/hash.rs). -/
inductive HashAlgorithm where
  | Blake3
  | Sha256
deriving DecidableEq, Repr

/-- Embeds `ConditionedSeed` (src/conditioning/hash.rs): 32 conditioned
bytes plus the source entropy estimate in bits. -/
structure ConditionedSeed where
  data : List Nat
  entropy_estimate : Nat
deriving DecidableEq, Repr

/-- Embeds `ConditionedSeed::as_bytes`. -/
def ConditionedSeed.as_bytes (self : ConditionedSeed) : List Nat :=
  self.data

/-- Embeds `Conditioner` (src/conditioning/hash.rs). -/
structure Conditioner where
  algorithm : HashAlgorithm
deriving DecidableEq, Repr

/-- Embeds `Conditioner::new`. -/
def Conditioner.new (algorithm : HashAlgorithm) : Conditioner :=
  { algorithm := algorithm }

/-- Embeds `Conditioner::condition`.  The BLAKE3 and SHA-256 hashes are
external library primitives, passed in as the parameters `blake3` and
`sha256` (byte list in, 32-byte digest out).  The entropy estimate is the
deliberately conservative `raw.len().min(256)`, independent of the data. -/
def Conditioner.condition (blake3 sha256 : List Nat → List Nat)
    (self : Conditioner) (raw : RawBits) : ConditionedSeed :=
  let data :=
    match self.algorithm with
    | .Blake3 => blake3 raw.data
    | .Sha256 => sha256 raw.data
  { data := data, entropy_estimate := min raw.len 256 }

/-- Embeds `PoolConfig` (src/conditioning/pool.rs). -/
structure PoolConfig where
  min_bits : Nat
  max_bytes : Nat
  algorithm : HashAlgorithm
deriving DecidableEq, Repr

/-- Embeds `PoolConfig::default` (512 bits minimum, 64 KiB cap, BLAKE3). -/
def PoolConfig.default : PoolConfig :=
  { min_bits := 512, max_bytes := 64 * 1024, algorithm := .Blake3 }

/-- Embeds `EntropyPool` (src/conditioning/pool.rs). -/
structure EntropyPool where
  buffer : List Nat
  config : PoolConfig
  conditioner : Conditioner
  total_bits_added : Nat
  total_extractions : Nat
deriving DecidableEq, Repr

/-- Embeds `EntropyPool::new`: empty buffer, counters at zero. -/
def EntropyPool.new (config : PoolConfig) : EntropyPool :=
  { buffer := []
    config := config
    conditioner := Conditioner.new config.algorithm
    total_bits_added := 0
    total_extractions := 0 }

/-- Embeds `EntropyPool::add`: appends at most the remaining capacity
(`max_bytes.saturating_sub(len)`, which is truncated `Nat` subtraction) and
bumps `total_bits_added` by 8 bits per byte actually appended. -/
def EntropyPool.add (self : EntropyPool) (raw : RawBits) : EntropyPool :=
  let space_remaining := self.config.max_bytes - self.buffer.length
  let bytes_to_add := min raw.len space_remaining
  { self with
    buffer := self.buffer ++ raw.data.take bytes_to_add
    total_bits_added := self.total_bits_added + bytes_to_add * 8 }

/-- Embeds `EntropyPool::is_ready`: `buffer.len() * 8 >= min_bits`. -/
def EntropyPool.is_ready (self : EntropyPool) : Bool :=
  self.config.min_bits ≤ self.buffer.length * 8

/-- Embeds `EntropyPool::extract`: `None` (state untouched) when not
ready; otherwise conditions the entire buffer, empties it, and bumps the
extraction counter.  Returns the updated pool with the Rust return value. -/
def EntropyPool.extract (blake3 sha256 : List Nat → List Nat)
    (self : EntropyPool) : EntropyPool × Option ConditionedSeed :=
  if !self.is_ready then (self, none)
  else
    let raw := RawBits.from_bytes self.buffer self.total_extractions
    let seed := Conditioner.condition blake3 sha256 self.conditioner raw
    ({ self with buffer := [], total_extractions := self.total_extractions + 1 },
     some seed)

/-- Embeds `EntropyPool::size_bytes`. -/
def EntropyPool.size_bytes (self : EntropyPool) : Nat :=
  self.buffer.length

/-- Embeds `EntropyPool::size_bits`. -/
def EntropyPool.size_bits (self : EntropyPool) : Nat :=
  self.buffer.length * 8

/-- Embeds `ReseedingError` (src/reseeding/csprng.rs). -/
inductive ReseedingError where
  | InsufficientEntropy (got need : Nat)
deriving DecidableEq, Repr

/-- Embeds `RESEED_DOMAIN = b"optical-entropy-reseed-v1"` as its byte
values. -/
def RESEED_DOMAIN : List Nat :=
  "optical-entropy-reseed-v1".toList.map Char.toNat

/-- Models the external `ChaCha20Rng` stream cipher state by the seed it
was initialized from, which fully determines it. -/
structure ChaCha20Rng where
  seed : List Nat
deriving DecidableEq, Repr

/-- Models `ChaCha20Rng::from_seed`. -/
def ChaCha20Rng.from_seed (seed : List Nat) : ChaCha20Rng :=
  { seed := seed }

/-- Models `u64::to_le_bytes`: the 8 little-endian bytes of the counter. -/
def u64_to_le_bytes (n : Nat) : List Nat :=
  (List.range 8).map (fun i => n / 256 ^ i % 256)

/-- Embeds `ReseedableRng` (src/reseeding/csprng.rs). -/
structure ReseedableRng where
  inner : ChaCha20Rng
  seed_material : List Nat
  min_entropy_bits : Nat
  reseed_count : Nat
  bytes_since_reseed : Nat
deriving DecidableEq, Repr

/-- Embeds `ReseedableRng::from_os_entropy`: the OS entropy source is
external, so the 32 bytes it produced enter as the parameter
`seed_material`; the minimum entropy defaults to 128 bits. -/
def ReseedableRng.from_os_entropy (seed_material : List Nat) : ReseedableRng :=
  { inner := ChaCha20Rng.from_seed seed_material
    seed_material := seed_material
    min_entropy_bits := 128
    reseed_count := 0
    bytes_since_reseed := 0 }

/-- Embeds `ReseedableRng::with_min_entropy` (built on `from_os_entropy`,
overriding only the minimum). -/
def ReseedableRng.with_min_entropy (seed_material : List Nat)
    (min_entropy_bits : Nat) : ReseedableRng :=
  { ReseedableRng.from_os_entropy seed_material with
    min_entropy_bits := min_entropy_bits }

/-- Embeds `ReseedableRng::reseed`.  The BLAKE3 hash is an external
primitive passed as `blake3`; the incremental `hasher.update` calls hash
the concatenation of the four inputs.  Returns the updated state together
with the Rust `Result`: on the insufficient-entropy early return the state
is the unchanged `self`. -/
def ReseedableRng.reseed (blake3 : List Nat → List Nat)
    (self : ReseedableRng) (seed : ConditionedSeed) :
    ReseedableRng × Except ReseedingError Unit :=
  if seed.entropy_estimate < self.min_entropy_bits then
    (self, .error (.InsufficientEntropy seed.entropy_estimate self.min_entropy_bits))
  else
    let new_seed_material :=
      blake3 (RESEED_DOMAIN ++ u64_to_le_bytes self.reseed_count ++
        self.seed_material ++ seed.as_bytes)
    ({ self with
        seed_material := new_seed_material
        inner := ChaCha20Rng.from_seed new_seed_material
        reseed_count := self.reseed_count + 1
        bytes_since_reseed := 0 },
     .ok ())

/-- Embeds `SpatialMixer` (src/extraction/spatial.rs). -/
structure SpatialMixer where
  stride : Nat
deriving DecidableEq, Repr

/-- Embeds `SpatialMixer::new` (stride 1). -/
def SpatialMixer.new : SpatialMixer :=
  { stride := 1 }

/-- Embeds `SpatialMixer::with_stride` (`stride.max(1)`). -/
def SpatialMixer.with_stride (stride : Nat) : SpatialMixer :=
  { stride := max stride 1 }

/-- Embeds `SpatialMixer::mix`: XORs each byte with the byte `stride`
positions away modulo the length, where the effective stride is the stored
stride reduced modulo `len.max(1)`.  The Rust `iter().enumerate()` loop is
the map over `List.enum`. -/
def SpatialMixer.mix (self : SpatialMixer) (data : List Nat) : List Nat :=
  if data.isEmpty then []
  else
    let len := data.length
    let stride := self.stride % max len 1
    data.enum.map (fun ib => Nat.xor ib.2 (data.getD ((ib.1 + stride) % len) 0))

/-- C2: on every successful reseed, the new retained seed material is the
hash of the domain separator, the little-endian reseed counter, the old
seed material and the new seed bytes; the cipher is re-initialized from
it, the reseed counter grows by 1 and the bytes-since-reseed counter
becomes 0. -/
theorem reseed_success_updates_state (blake3 : List Nat → List Nat)
    (rng : ReseedableRng) (seed : ConditionedSeed)
    (h : rng.min_entropy_bits ≤ seed.entropy_estimate) :
    rng.reseed blake3 seed =
      ({ inner := ChaCha20Rng.from_seed (blake3 (RESEED_DOMAIN ++
            u64_to_le_bytes rng.reseed_count ++ rng.seed_material ++ seed.as_bytes))
         seed_material := blake3 (RESEED_DOMAIN ++
            u64_to_le_bytes rng.reseed_count ++ rng.seed_material ++ seed.as_bytes)
         min_entropy_bits := rng.min_entropy_bits
         reseed_count := rng.reseed_count + 1
         bytes_since_reseed := 0 }, Except.ok ()) := by
  unfold ReseedableRng.reseed
  rw [if_neg (by omega)]

/-- Witness for C2: a concrete successful reseed at minimum entropy 64
with a 128-bit-entropy seed. -/
theorem reseed_success_updates_state_witness :
    (ReseedableRng.with_min_entropy (List.replicate 32 1) 64).min_entropy_bits ≤
      (ConditionedSeed.mk (List.replicate 32 66) 128).entropy_estimate ∧
    (ReseedableRng.with_min_entropy (List.replicate 32 1) 64).reseed
        (fun l => List.take 32 l) (ConditionedSeed.mk (List.replicate 32 66) 128) =
      ({ inner := ChaCha20Rng.from_seed (List.take 32 (RESEED_DOMAIN ++
            u64_to_le_bytes (ReseedableRng.with_min_entropy (List.replicate 32 1) 64).reseed_count ++
            (ReseedableRng.with_min_entropy (List.replicate 32 1) 64).seed_material ++
            (ConditionedSeed.mk (List.replicate 32 66) 128).as_bytes))
         seed_material := List.take 32 (RESEED_DOMAIN ++
            u64_to_le_bytes (ReseedableRng.with_min_entropy (List.replicate 32 1) 64).reseed_count ++
            (ReseedableRng.with_min_entropy (List.replicate 32 1) 64).seed_material ++
            (ConditionedSeed.mk (List.replicate 32 66) 128).as_bytes)
         min_entropy_bits := (ReseedableRng.with_min_entropy (List.replicate 32 1) 64).min_entropy_bits
         reseed_count := (ReseedableRng.with_min_entropy (List.replicate 32 1) 64).reseed_count + 1
         bytes_since_reseed := 0 }, Except.ok ()) :=
  ⟨by decide,
   reseed_success_updates_state (fun l => List.take 32 l)
     (ReseedableRng.with_min_entropy (List.replicate 32 1) 64)
     (ConditionedSeed.mk (List.replicate 32 66) 128) (by decide)⟩

/-- C3: reseeding with entropy below the configured minimum (default 128
bits) returns the insufficient-entropy error and leaves the whole
generator state unchanged. -/
theorem reseed_insufficient_entropy_rejected (blake3 : List Nat → List Nat)
    (rng : ReseedableRng) (seed : ConditionedSeed)
    (h : seed.entropy_estimate < rng.min_entropy_bits) :
    rng.reseed blake3 seed =
      (rng, .error (.InsufficientEntropy seed.entropy_estimate rng.min_entropy_bits)) ∧
    (∀ sm : List Nat, (ReseedableRng.from_os_entropy sm).min_entropy_bits = 128) := by
  constructor
  · unfold ReseedableRng.reseed
    rw [if_pos h]
  · intro sm
    rfl

/-- Witness for C3: a 100-bit seed is rejected by a freshly initialized
generator (minimum 128) and the state is returned unchanged. -/
theorem reseed_insufficient_entropy_rejected_witness :
    (ConditionedSeed.mk (List.replicate 32 7) 100).entropy_estimate <
      (ReseedableRng.from_os_entropy (List.replicate 32 2)).min_entropy_bits ∧
    ((ReseedableRng.from_os_entropy (List.replicate 32 2)).reseed (fun l => l)
        (ConditionedSeed.mk (List.replicate 32 7) 100) =
      (ReseedableRng.from_os_entropy (List.replicate 32 2),
       .error (.InsufficientEntropy (ConditionedSeed.mk (List.replicate 32 7) 100).entropy_estimate
         (ReseedableRng.from_os_entropy (List.replicate 32 2)).min_entropy_bits)) ∧
     (∀ sm : List Nat, (ReseedableRng.from_os_entropy sm).min_entropy_bits = 128)) :=
  ⟨by decide,
   reseed_insufficient_entropy_rejected (fun l => l)
     (ReseedableRng.from_os_entropy (List.replicate 32 2))
     (ConditionedSeed.mk (List.replicate 32 7) 100) (by decide)⟩

/-- Counterexample for C4: with `max_bytes = 10`, adding a 100-byte
`RawBits` to an empty pool raises `total_bits_added` by 80 (the truncated
bytes times 8), not by `8 * 100` as the claim states. -/
theorem pool_add_attempted_bits_counterexample :
    ((EntropyPool.new (PoolConfig.mk 8 10 .Blake3)).add
        (RawBits.from_bytes (List.replicate 100 0) 1)).total_bits_added = 80 ∧
    ¬ ((EntropyPool.new (PoolConfig.mk 8 10 .Blake3)).add
        (RawBits.from_bytes (List.replicate 100 0) 1)).total_bits_added =
      (EntropyPool.new (PoolConfig.mk 8 10 .Blake3)).total_bits_added +
        8 * (RawBits.from_bytes (List.replicate 100 0) 1).len := by
  constructor
  · decide
  · decide

/-- C4 (amended): `EntropyPool::add` raises `total_bits_added` by 8 times
the number of bytes actually appended, i.e. the attempted length capped at
the remaining capacity; bytes dropped by truncation are not counted. -/
theorem pool_add_counts_appended_bits (p : EntropyPool) (raw : RawBits) :
    (p.add raw).total_bits_added =
      p.total_bits_added + min raw.len (p.config.max_bytes - p.buffer.length) * 8 :=
  rfl

/-- C8: the conditioned seed's entropy estimate is `min(input bytes, 256)`
for every input and either hash algorithm: 10 for a 10-byte input, 256 for
a 1000-byte input. -/
theorem conditioner_entropy_estimate_min (blake3 sha256 : List Nat → List Nat)
    (c : Conditioner) (raw : RawBits) :
    (Conditioner.condition blake3 sha256 c raw).entropy_estimate = min raw.len 256 ∧
    (Conditioner.condition blake3 sha256 c
        (RawBits.from_bytes (List.replicate 10 66) 1)).entropy_estimate = 10 ∧
    (Conditioner.condition blake3 sha256 c
        (RawBits.from_bytes (List.replicate 1000 66) 1)).entropy_estimate = 256 := by
  refine ⟨rfl, ?_, ?_⟩ <;>
    · show min (RawBits.from_bytes _ 1).len 256 = _
      rw [RawBits.len, RawBits.from_bytes, List.length_replicate]
      omega

/-- C9: `EntropyPool::add` never grows the buffer past `max_bytes`: the
new size is the old size plus the attempted bytes, capped at `max_bytes`;
in particular adding 100 bytes to an empty pool with `max_bytes = 10`
yields `size_bytes() == 10`. -/
theorem pool_add_capacity_capped (p : EntropyPool) (raw : RawBits)
    (h : p.buffer.length ≤ p.config.max_bytes) :
    (p.add raw).size_bytes = min (p.size_bytes + raw.len) p.config.max_bytes ∧
    (p.add raw).size_bytes ≤ p.config.max_bytes ∧
    ((EntropyPool.new (PoolConfig.mk 8 10 .Blake3)).add
        (RawBits.from_bytes (List.replicate 100 0) 1)).size_bytes = 10 := by
  have hlen : (p.add raw).size_bytes =
      p.buffer.length + min (min raw.len (p.config.max_bytes - p.buffer.length)) raw.data.length := by
    simp [EntropyPool.add, EntropyPool.size_bytes, List.length_take]
  have hraw : raw.len = raw.data.length := rfl
  refine ⟨?_, ?_, by decide⟩
  · rw [hlen, hraw]
    simp only [EntropyPool.size_bytes]
    omega
  · rw [hlen, hraw]
    omega

/-- Witness for C9: the capacity bound instantiated at the concrete
truncating add from the claim. -/
theorem pool_add_capacity_capped_witness :
    (EntropyPool.new (PoolConfig.mk 8 10 .Blake3)).buffer.length ≤
      (EntropyPool.new (PoolConfig.mk 8 10 .Blake3)).config.max_bytes ∧
    ((EntropyPool.new (PoolConfig.mk 8 10 .Blake3)).add
        (RawBits.from_bytes (List.replicate 100 0) 1)).size_bytes =
      min ((EntropyPool.new (PoolConfig.mk 8 10 .Blake3)).size_bytes +
        (RawBits.from_bytes (List.replicate 100 0) 1).len)
        (EntropyPool.new (PoolConfig.mk 8 10 .Blake3)).config.max_bytes ∧
    ((EntropyPool.new (PoolConfig.mk 8 10 .Blake3)).add
        (RawBits.from_bytes (List.replicate 100 0) 1)).size_bytes ≤
      (EntropyPool.new (PoolConfig.mk 8 10 .Blake3)).config.max_bytes ∧
    ((EntropyPool.new (PoolConfig.mk 8 10 .Blake3)).add
        (RawBits.from_bytes (List.replicate 100 0) 1)).size_bytes = 10 :=
  ⟨by decide,
   pool_add_capacity_capped (EntropyPool.new (PoolConfig.mk 8 10 .Blake3))
     (RawBits.from_bytes (List.replicate 100 0) 1) (by decide)⟩

/-- Counterexample for C6: with `min_bits = 0` the empty pool is ready, so
`extract` returns a seed while `is_ready()` stays true afterwards — the
claim's "is_ready() becomes false" fails for this configuration. -/
theorem pool_extract_min_bits_zero_counterexample :
    (((EntropyPool.new (PoolConfig.mk 0 10 .Blake3)).extract
        (fun l => l) (fun l => l)).2).isSome = true ∧
    (((EntropyPool.new (PoolConfig.mk 0 10 .Blake3)).extract
        (fun l => l) (fun l => l)).1).is_ready = true :=
  ⟨rfl, rfl⟩

/-- C6 (amended): `extract` returns a seed iff the pool is ready
(`buffered bytes * 8 ≥ min_bits`); when not ready the whole pool state is
returned untouched, and on success the buffer is emptied atomically
(`size_bytes() = 0`), the extraction counter grows by exactly 1, and —
whenever `min_bits > 0` — `is_ready()` becomes false. -/
theorem pool_extract_atomic (blake3 sha256 : List Nat → List Nat)
    (p : EntropyPool) :
    ((p.extract blake3 sha256).2.isSome = p.is_ready) ∧
    (p.is_ready = true ↔ p.config.min_bits ≤ p.buffer.length * 8) ∧
    (p.is_ready = false → p.extract blake3 sha256 = (p, none)) ∧
    (p.is_ready = true →
      (p.extract blake3 sha256).1.buffer = [] ∧
      (p.extract blake3 sha256).1.size_bytes = 0 ∧
      (p.extract blake3 sha256).1.total_extractions = p.total_extractions + 1 ∧
      (0 < p.config.min_bits → (p.extract blake3 sha256).1.is_ready = false)) := by
  refine ⟨?_, ?_, ?_, ?_⟩
  · cases hr : p.is_ready <;>
      simp [EntropyPool.extract, hr]
  · simp [EntropyPool.is_ready]
  · intro hr
    simp [EntropyPool.extract, hr]
  · intro hr
    refine ⟨?_, ?_, ?_, ?_⟩
    · simp [EntropyPool.extract, hr]
    · simp [EntropyPool.extract, hr, EntropyPool.size_bytes]
    · simp [EntropyPool.extract, hr]
    · intro hm
      simp only [EntropyPool.extract, hr, Bool.not_true, Bool.false_eq_true,
        if_false]
      simp only [EntropyPool.is_ready, List.length_nil,
        decide_eq_false_iff_not, not_le]
      omega

/-- Witness for C6: a ready pool (two buffered bytes, `min_bits = 8`) is
emptied by extraction, the counter advances, and readiness is lost. -/
theorem pool_extract_atomic_witness :
    ((EntropyPool.new (PoolConfig.mk 8 10 .Blake3)).add
        (RawBits.from_bytes [1, 2] 1)).is_ready = true ∧
    (((EntropyPool.new (PoolConfig.mk 8 10 .Blake3)).add
        (RawBits.from_bytes [1, 2] 1)).extract (fun l => l) (fun l => l)).1.buffer = [] ∧
    (((EntropyPool.new (PoolConfig.mk 8 10 .Blake3)).add
        (RawBits.from_bytes [1, 2] 1)).extract (fun l => l) (fun l => l)).1.size_bytes = 0 ∧
    (((EntropyPool.new (PoolConfig.mk 8 10 .Blake3)).add
        (RawBits.from_bytes [1, 2] 1)).extract (fun l => l) (fun l => l)).1.total_extractions =
      ((EntropyPool.new (PoolConfig.mk 8 10 .Blake3)).add
        (RawBits.from_bytes [1, 2] 1)).total_extractions + 1 ∧
    (0 < ((EntropyPool.new (PoolConfig.mk 8 10 .Blake3)).add
        (RawBits.from_bytes [1, 2] 1)).config.min_bits →
      (((EntropyPool.new (PoolConfig.mk 8 10 .Blake3)).add
        (RawBits.from_bytes [1, 2] 1)).extract (fun l => l) (fun l => l)).1.is_ready = false) :=
  ⟨rfl,
   (pool_extract_atomic (fun l => l) (fun l => l)
     ((EntropyPool.new (PoolConfig.mk 8 10 .Blake3)).add
       (RawBits.from_bytes [1, 2] 1))).2.2.2 rfl⟩

/-- C10: when the (non-empty) input length divides the mixer's stored
stride (the configured stride clamped to at least 1), the stride reduced
modulo the length is 0, so every byte is XORed with itself and `mix`
returns an all-zero buffer of the same length, whatever the contents. -/
theorem spatial_mix_divisible_stride_zeroes (s : Nat) (data : List Nat)
    (h1 : data ≠ []) (h2 : data.length ∣ max s 1) :
    (SpatialMixer.with_stride s).mix data = List.replicate data.length 0 := by
  have hpos : 0 < data.length := List.length_pos.mpr h1
  have hmax : max data.length 1 = data.length := by omega
  have hstride : max s 1 % max data.length 1 = 0 := by
    rw [hmax]
    exact Nat.mod_eq_zero_of_dvd h2
  unfold SpatialMixer.mix SpatialMixer.with_stride
  rw [if_neg (by simp [h1])]
  simp only [hstride]
  apply List.ext_getElem
  · simp
  · intro i hi hrep
    have hilen : i < data.length := by simpa using hrep
    have henum : i < data.enum.length := by simpa using hilen
    rw [List.getElem_map, List.getElem_enum]
    rw [Nat.add_zero, Nat.mod_eq_of_lt hilen]
    rw [List.getD_eq_getElem data 0 hilen]
    show data[i] ^^^ data[i] = (List.replicate data.length 0)[i]
    rw [Nat.xor_self, List.getElem_replicate]

/-- Witness for C10: stride 4 on the 4-byte buffer `[1,2,3,4]` (length
divides stride) yields all zeros. -/
theorem spatial_mix_divisible_stride_zeroes_witness :
    ([1, 2, 3, 4] : List Nat) ≠ [] ∧
    ([1, 2, 3, 4] : List Nat).length ∣ max 4 1 ∧
    (SpatialMixer.with_stride 4).mix [1, 2, 3, 4] =
      List.replicate ([1, 2, 3, 4] : List Nat).length 0 :=
  ⟨by decide, by decide,
   spatial_mix_divisible_stride_zeroes 4 [1, 2, 3, 4] (by decide) (by decide)⟩

/-- C7: `check` passes exactly when all three bounds hold, and otherwise
reports exactly the first violated bound in the fixed order bias, then
variance, then autocorrelation (the `Result` carries at most one
violation by construction). -/
theorem thresholds_check_order (th : QualityThresholds) (s : StatisticalTests) :
    (th.check s = .ok () ↔
      |s.bit_bias| ≤ th.max_bit_bias ∧ th.min_variance ≤ s.variance ∧
        |s.autocorrelation| ≤ th.max_autocorrelation) ∧
    (th.max_bit_bias < |s.bit_bias| →
      th.check s = .error (.BitBias s.bit_bias th.max_bit_bias)) ∧
    (|s.bit_bias| ≤ th.max_bit_bias → s.variance < th.min_variance →
      th.check s = .error (.LowVariance s.variance th.min_variance)) ∧
    (|s.bit_bias| ≤ th.max_bit_bias → th.min_variance ≤ s.variance →
      th.max_autocorrelation < |s.autocorrelation| →
      th.check s = .error (.HighAutocorrelation s.autocorrelation th.max_autocorrelation)) := by
  unfold QualityThresholds.check
  split_ifs with hb hv ha
  · exact ⟨⟨fun h => by simp at h, fun h => absurd hb (not_lt.mpr h.1)⟩,
      fun _ => rfl,
      fun hb2 _ => absurd hb (not_lt.mpr hb2),
      fun hb2 _ _ => absurd hb (not_lt.mpr hb2)⟩
  · exact ⟨⟨fun h => by simp at h, fun h => absurd hv (not_lt.mpr h.2.1)⟩,
      fun hb2 => absurd hb2 hb,
      fun _ _ => rfl,
      fun _ hv2 _ => absurd hv (not_lt.mpr hv2)⟩
  · exact ⟨⟨fun h => by simp at h, fun h => absurd ha (not_lt.mpr h.2.2)⟩,
      fun hb2 => absurd hb2 hb,
      fun _ hv2 => absurd hv2 hv,
      fun _ _ _ => rfl⟩
  · exact ⟨⟨fun _ => ⟨not_lt.mp hb, not_lt.mp hv, not_lt.mp ha⟩, fun _ => rfl⟩,
      fun hb2 => absurd hb2 hb,
      fun _ hv2 => absurd hv2 hv,
      fun _ _ ha2 => absurd ha2 ha⟩

/-- Witness for C7: with the default thresholds and a bias of 1 (above
the 0.05 bound), the single reported violation is the bias bound. -/
theorem thresholds_check_order_witness :
    QualityThresholds.default.max_bit_bias <
      |(StatisticalTests.mk 1 0 0 1000).bit_bias| ∧
    QualityThresholds.default.check (StatisticalTests.mk 1 0 0 1000) =
      .error (.BitBias (StatisticalTests.mk 1 0 0 1000).bit_bias
        QualityThresholds.default.max_bit_bias) :=
  ⟨by norm_num [QualityThresholds.default],
   (thresholds_check_order QualityThresholds.default
     (StatisticalTests.mk 1 0 0 1000)).2.1
     (by norm_num [QualityThresholds.default])⟩

/-- The mean of `n` copies of the byte `b` is exactly `b` (in `ℚ`). -/
theorem mean_replicate (n b : Nat) (hn : n ≠ 0) :
    ((List.replicate n b).map (fun (x : Nat) => (x : ℚ))).sum /
      (((List.replicate n b).length : Nat) : ℚ) = (b : ℚ) := by
  rw [List.map_replicate, List.sum_replicate, List.length_replicate, nsmul_eq_mul]
  rw [mul_div_assoc, mul_comm,
    div_mul_cancel₀ _ (show ((n : Nat) : ℚ) ≠ 0 by exact_mod_cast hn)]

/-- The sum of squared deviations from the mean vanishes on a constant
buffer. -/
theorem devsum_replicate (n b : Nat) (hn : n ≠ 0) :
    ((List.replicate n b).map
      (fun (x : Nat) => ((x : ℚ) -
        ((List.replicate n b).map (fun (y : Nat) => (y : ℚ))).sum /
          (((List.replicate n b).length : Nat) : ℚ)) ^ 2)).sum = 0 := by
  rw [mean_replicate n b hn]
  rw [List.map_replicate, List.sum_replicate]
  simp

/-- `compute_variance` is exactly 0 on every non-empty constant buffer. -/
theorem constant_variance (n b : Nat) (hn : n ≠ 0) :
    StatisticalTests.compute_variance (List.replicate n b) = 0 := by
  have hne : List.replicate n b ≠ [] := by
    simp [hn]
  simp only [StatisticalTests.compute_variance, if_neg hne]
  rw [devsum_replicate n b hn]
  simp

/-- `compute_autocorrelation` is exactly 1 on a constant buffer of at
least two bytes (the zero-variance branch). -/
theorem constant_autocorrelation (n b : Nat) (hn : 2 ≤ n) :
    StatisticalTests.compute_autocorrelation (List.replicate n b) = 1 := by
  simp only [StatisticalTests.compute_autocorrelation, List.length_replicate]
  rw [if_neg (by omega)]
  rw [if_pos]
  rw [show ((n : Nat) : ℚ) = (((List.replicate n b).length : Nat) : ℚ) by
    rw [List.length_replicate]]
  exact devsum_replicate n b (by omega)

/-- Counterexample for C5: the all-identical one-byte buffer `[5]` has
variance 0 but autocorrelation 0, not 1 — the `len < 2` early return fires
before the degenerate-constant rule, so the claim fails for all-identical
buffers of length below 2. -/
theorem stats_constant_short_buffer_counterexample :
    (StatisticalTests.analyze (RawBits.from_bytes [5] 1)).autocorrelation = 0 ∧
    ¬ ((StatisticalTests.analyze (RawBits.from_bytes [5] 1)).variance = 0 ∧
       (StatisticalTests.analyze (RawBits.from_bytes [5] 1)).autocorrelation = 1) := by
  have h0 : (StatisticalTests.analyze (RawBits.from_bytes [5] 1)).autocorrelation = 0 := by
    show StatisticalTests.compute_autocorrelation [5] = 0
    simp [StatisticalTests.compute_autocorrelation]
  refine ⟨h0, fun hc => ?_⟩
  rw [h0] at hc
  exact absurd hc.2 (by norm_num)

/-- C5 (amended): for every all-identical-byte buffer of length at least
2, the Statistical Test Suite's analyze returns variance exactly 0 and
autocorrelation exactly 1; for shorter buffers the autocorrelation is 0
instead. -/
theorem stats_constant_buffer_degenerate (n b f : Nat) (h : 2 ≤ n) :
    (StatisticalTests.analyze (RawBits.from_bytes (List.replicate n b) f)).variance = 0 ∧
    (StatisticalTests.analyze (RawBits.from_bytes (List.replicate n b) f)).autocorrelation = 1 := by
  constructor
  · show StatisticalTests.compute_variance (List.replicate n b) = 0
    exact constant_variance n b (by omega)
  · show StatisticalTests.compute_autocorrelation (List.replicate n b) = 1
    exact constant_autocorrelation n b h

/-- Witness for C5 (amended): the three-byte constant buffer `[7,7,7]` has
variance 0 and autocorrelation 1. -/
theorem stats_constant_buffer_degenerate_witness :
    2 ≤ 3 ∧
    (StatisticalTests.analyze (RawBits.from_bytes (List.replicate 3 7) 1)).variance = 0 ∧
    (StatisticalTests.analyze (RawBits.from_bytes (List.replicate 3 7) 1)).autocorrelation = 1 :=
  ⟨by decide, stats_constant_buffer_degenerate 3 7 1 (by decide)⟩

/-- One passing `analyze` call: the healthy streak grows by one, the
threshold configuration is untouched, and `is_healthy` is set once the
streak reaches the requirement (and never cleared). -/
theorem analyze_pass_metrics {th : QualityThresholds} (m : HealthMonitor) (r : RawBits)
    (hth : m.thresholds = th)
    (hpass : th.check (StatisticalTests.analyze r) = .ok ()) :
    (m.analyze r).thresholds = m.thresholds ∧
    (m.analyze r).required_healthy_streak = m.required_healthy_streak ∧
    (m.analyze r).metrics.consecutive_healthy = m.metrics.consecutive_healthy + 1 ∧
    (m.analyze r).metrics.is_healthy =
      (if m.required_healthy_streak ≤ m.metrics.consecutive_healthy + 1 then true
       else m.metrics.is_healthy) := by
  simp only [HealthMonitor.analyze, hth, hpass]
  exact ⟨trivial, trivial, trivial, trivial⟩

/-- One failing `analyze` call makes the monitor unhealthy immediately,
whatever its previous state. -/
theorem analyze_fail_unhealthy (m : HealthMonitor) (r : RawBits)
    (hfail : m.thresholds.check (StatisticalTests.analyze r) ≠ .ok ()) :
    (m.analyze r).metrics.is_healthy = false := by
  unfold HealthMonitor.analyze
  cases hc : m.thresholds.check (StatisticalTests.analyze r) with
  | ok u =>
      cases u
      exact absurd hc hfail
  | error v =>
      simp only [hc]

/-- Running any all-passing sequence of `analyze` calls from a monitor
whose health equals `decide (streak ≤ consecutive_healthy)` adds the
sequence length to the streak and keeps that characterization of
health. -/
theorem analyze_run_pass (th : QualityThresholds) (streak : Nat) :
    ∀ (rs : List RawBits) (m : HealthMonitor),
      (∀ r ∈ rs, th.check (StatisticalTests.analyze r) = .ok ()) →
      m.thresholds = th →
      m.required_healthy_streak = streak →
      m.metrics.is_healthy = decide (streak ≤ m.metrics.consecutive_healthy) →
      (rs.foldl HealthMonitor.analyze m).metrics.consecutive_healthy =
        m.metrics.consecutive_healthy + rs.length ∧
      (rs.foldl HealthMonitor.analyze m).metrics.is_healthy =
        decide (streak ≤ m.metrics.consecutive_healthy + rs.length) := by
  intro rs
  induction rs with
  | nil =>
      intro m hpass hth hstreak hinv
      simpa using hinv
  | cons r rs ih =>
      intro m hpass hth hstreak hinv
      have hp := analyze_pass_metrics m r hth (hpass r (by simp))
      have hinv1 : (m.analyze r).metrics.is_healthy =
          decide (streak ≤ (m.analyze r).metrics.consecutive_healthy) := by
        rw [hp.2.2.2, hp.2.2.1, hstreak]
        by_cases hc : streak ≤ m.metrics.consecutive_healthy + 1
        · rw [if_pos hc]
          exact (decide_eq_true hc).symm
        · rw [if_neg hc, hinv]
          exact decide_eq_decide.mpr (by omega)
      have h1 := ih (m.analyze r) (fun x hx => hpass x (by simp [hx]))
        (hp.1.trans hth) (hp.2.1.trans hstreak) hinv1
      rw [List.foldl_cons]
      constructor
      · rw [h1.1, hp.2.2.1, List.length_cons]
        omega
      · rw [h1.2, hp.2.2.1, List.length_cons]
        exact decide_eq_decide.mpr (by omega)

/-- C1: the monitor starts with `allow_reseed() == false`; with streak
requirement `n` (clamped to at least 1), any all-passing run shorter than
the clamped requirement leaves `allow_reseed()` false while any
all-passing run reaching it makes `allow_reseed()` true; and a single
failing `analyze` call — from any state, healthy or not — makes
`allow_reseed()` false immediately. -/
theorem health_monitor_streak_fail_closed (th : QualityThresholds) (n : Nat) :
    (HealthMonitor.with_streak_requirement th n).allow_reseed = false ∧
    (∀ rs : List RawBits,
      (∀ r ∈ rs, th.check (StatisticalTests.analyze r) = .ok ()) →
      rs.length < max n 1 →
      (rs.foldl HealthMonitor.analyze
        (HealthMonitor.with_streak_requirement th n)).allow_reseed = false) ∧
    (∀ rs : List RawBits,
      (∀ r ∈ rs, th.check (StatisticalTests.analyze r) = .ok ()) →
      max n 1 ≤ rs.length →
      (rs.foldl HealthMonitor.analyze
        (HealthMonitor.with_streak_requirement th n)).allow_reseed = true) ∧
    (∀ (m : HealthMonitor) (r : RawBits),
      m.thresholds.check (StatisticalTests.analyze r) ≠ .ok () →
      (m.analyze r).allow_reseed = false) := by
  have hch0 : (HealthMonitor.with_streak_requirement th n).metrics.consecutive_healthy = 0 :=
    rfl
  have hinv0 : (HealthMonitor.with_streak_requirement th n).metrics.is_healthy =
      decide (max n 1 ≤
        (HealthMonitor.with_streak_requirement th n).metrics.consecutive_healthy) := by
    rw [hch0]
    show false = decide (max n 1 ≤ 0)
    have hne : ¬ (max n 1 ≤ 0) := by omega
    simp [hne]
  refine ⟨rfl, ?_, ?_, ?_⟩
  · intro rs hpass hlt
    have h := analyze_run_pass th (max n 1) rs
      (HealthMonitor.with_streak_requirement th n) hpass rfl rfl hinv0
    show (rs.foldl HealthMonitor.analyze
      (HealthMonitor.with_streak_requirement th n)).metrics.is_healthy = false
    rw [h.2, hch0]
    exact decide_eq_false (by omega)
  · intro rs hpass hge
    have h := analyze_run_pass th (max n 1) rs
      (HealthMonitor.with_streak_requirement th n) hpass rfl rfl hinv0
    show (rs.foldl HealthMonitor.analyze
      (HealthMonitor.with_streak_requirement th n)).metrics.is_healthy = true
    rw [h.2, hch0]
    exact decide_eq_true (by omega)
  · intro m r hfail
    exact analyze_fail_unhealthy m r hfail

/-- Witness for C1: with the permissive thresholds and streak requirement
2, the two-byte sample `[0,255]` passes the check; two such passes flip
`allow_reseed()` to true, and one failing sample `[0,0]` analyzed by a
fresh monitor leaves `allow_reseed()` false. -/
theorem health_monitor_streak_fail_closed_witness :
    (∀ r ∈ [RawBits.from_bytes [0, 255] 1, RawBits.from_bytes [0, 255] 1],
      QualityThresholds.permissive.check (StatisticalTests.analyze r) = .ok ()) ∧
    max 2 1 ≤ ([RawBits.from_bytes [0, 255] 1,
      RawBits.from_bytes [0, 255] 1] : List RawBits).length ∧
    (([RawBits.from_bytes [0, 255] 1, RawBits.from_bytes [0, 255] 1] :
        List RawBits).foldl HealthMonitor.analyze
      (HealthMonitor.with_streak_requirement
        QualityThresholds.permissive 2)).allow_reseed = true ∧
    (HealthMonitor.with_streak_requirement
        QualityThresholds.permissive 2).thresholds.check
      (StatisticalTests.analyze (RawBits.from_bytes [0, 0] 1)) ≠ .ok () ∧
    ((HealthMonitor.with_streak_requirement QualityThresholds.permissive 2).analyze
      (RawBits.from_bytes [0, 0] 1)).allow_reseed = false := by
  have habs : |(1/2 : ℚ)| = 1/2 := abs_of_nonneg (by norm_num)
  have hgood : QualityThresholds.permissive.check
      (StatisticalTests.analyze (RawBits.from_bytes [0, 255] 1)) = .ok () := by
    norm_num [QualityThresholds.check, QualityThresholds.permissive,
      StatisticalTests.analyze, StatisticalTests.compute_variance,
      StatisticalTests.compute_autocorrelation, RawBits.bit_bias,
      RawBits.popcount, RawBits.bit_count, RawBits.is_empty, RawBits.from_bytes,
      byteOnes, List.range_succ, habs,
      (by decide : ([0, 255] : List Nat) ≠ [])]
  have hbad : (HealthMonitor.with_streak_requirement
      QualityThresholds.permissive 2).thresholds.check
      (StatisticalTests.analyze (RawBits.from_bytes [0, 0] 1)) ≠ .ok () := by
    show QualityThresholds.permissive.check
      (StatisticalTests.analyze (RawBits.from_bytes [0, 0] 1)) ≠ .ok ()
    norm_num [QualityThresholds.check, QualityThresholds.permissive,
      StatisticalTests.analyze, StatisticalTests.compute_variance,
      StatisticalTests.compute_autocorrelation, RawBits.bit_bias,
      RawBits.popcount, RawBits.bit_count, RawBits.is_empty, RawBits.from_bytes,
      byteOnes, List.range_succ, habs,
      (by decide : ([0, 0] : List Nat) ≠ [])]
    exact fun h => nomatch h
  have hpass : ∀ r ∈ [RawBits.from_bytes [0, 255] 1, RawBits.from_bytes [0, 255] 1],
      QualityThresholds.permissive.check (StatisticalTests.analyze r) = .ok () := by
    intro r hr
    cases hr with
    | head => exact hgood
    | tail _ hr2 =>
        cases hr2 with
        | head => exact hgood
        | tail _ hr3 => cases hr3
  exact ⟨hpass, by decide,
    (health_monitor_streak_fail_closed QualityThresholds.permissive 2).2.2.1
      [RawBits.from_bytes [0, 255] 1, RawBits.from_bytes [0, 255] 1] hpass (by decide),
    hbad,
    (health_monitor_streak_fail_closed QualityThresholds.permissive 2).2.2.2
      (HealthMonitor.with_streak_requirement QualityThresholds.permissive 2)
      (RawBits.from_bytes [0, 0] 1) hbad⟩
